import Mathlib

/-!
# Verification development for `src/main.go`

The program is one AWS Lambda handler, `HandleRequest`, which receives an SNS
event carrying an EC2 Image Builder notification, derives an image name and an
SSM parameter path from it, tags the new AMI and records its id in the
parameter store.

Modelling decisions.

* Go strings that reach the handler were produced by `encoding/json`, which
  only yields valid UTF-8, so they are Lean `String`s; a rune is the `Nat`
  code point of a `Char`.
* Go `int` values keep their mathematical value (`Int`); the only operation on
  them is `%d` formatting.
* Library behaviour that the repository does not define (`json.Unmarshal`,
  `os.Getenv`, `session.NewSession`, the two AWS calls and the non-ASCII part of
  the Unicode case-folding tables) is supplied by an `Env` record, so every
  statement below is quantified over all possible behaviours of those parts.
* `HandleRequest` returns the list of library calls it made, in order, the
  final value of the two package-level client variables, and how it ended:
  a returned `error` (or `nil`), or a run-time panic.
* The only loop is the orbit walk inside `strings.EqualFold`; it is modelled
  with a fuel counter; `EqualFold_GOLDENIMAGE` and `HandleRequest_fuel` prove
  that two units of fuel are always enough when the second argument is
  `GOLDENIMAGE`, so the handler itself always ends.
-/

namespace Lambda

/-! ## Data model -/

/-- Go `error` value, observed through the text of its `Error()` method. -/
structure GoError where
  msg : String
deriving DecidableEq, Repr

/-- Field `State` of `Ec2BuilderData`. -/
structure BuilderState where
  Status : String
deriving DecidableEq, Repr

/-- Element type of `OuputResources.Amis`. -/
structure Ami where
  Image : String
deriving DecidableEq, Repr

/-- Field `OuputResources` of `Ec2BuilderData` (spelling as in the source). -/
structure OuputResources where
  Amis : List Ami
deriving DecidableEq, Repr

/-- Field `AmiTags` of a distribution. -/
structure AmiTags where
  Role : String
  Project : String
deriving DecidableEq, Repr

/-- Field `AmiDistributionConfiguration` of a distribution. -/
structure AmiDistributionConfiguration where
  AmiTags : AmiTags
deriving DecidableEq, Repr

/-- Element type of `DistributionConfiguration.Distrubutions`. -/
structure Distribution where
  AmiDistributionConfiguration : AmiDistributionConfiguration
deriving DecidableEq, Repr

/-- Field `DistributionConfiguration` of `Ec2BuilderData`. -/
structure DistributionConfiguration where
  Distrubutions : List Distribution
deriving DecidableEq, Repr

/-- The notification payload, `type Ec2BuilderData struct` (main.go 28-51). -/
structure Ec2BuilderData where
  DateCreated : String
  OSVersion : String
  Version : String
  BuildVersion : Int
  State : BuilderState
  OuputResources : OuputResources
  DistributionConfiguration : DistributionConfiguration
deriving DecidableEq, Repr

/-- The part of `events.SNSEntity` the handler reads. -/
structure SNSEntity where
  Message : String
deriving DecidableEq, Repr

/-- The part of `events.SNSEventRecord` the handler reads. -/
structure SNSEventRecord where
  SNS : SNSEntity
deriving DecidableEq, Repr

/-- The inbound batch, `events.SNSEvent`. -/
structure SNSEvent where
  Records : List SNSEventRecord
deriving DecidableEq, Repr

/-- Handle of an AWS session (`*session.Session`). -/
structure Session where
  handle : Nat
deriving DecidableEq, Repr

/-- One `ec2.Tag`. -/
structure Tag where
  Key : String
  Value : String
deriving DecidableEq, Repr

/-- The fields of `ec2.CreateTagsInput` the handler sets. -/
structure CreateTagsInput where
  Tags : List Tag
  Resources : List String
deriving DecidableEq, Repr

/-- The fields of `ssm.PutParameterInput` the handler sets. -/
structure PutParameterInput where
  Name : String
  Overwrite : Bool
  /-- Field `Type` of the input (a reserved word here). -/
  Type_ : String
  Value : String
deriving DecidableEq, Repr

/-- Library behaviour the handler depends on. -/
structure Env where
  /-- Result of `json.Unmarshal` into a zero `Ec2BuilderData`. -/
  Unmarshal : String → Except GoError Ec2BuilderData
  /-- Value of `os.Getenv`. -/
  Getenv : String → String
  /-- Result of `session.NewSession` for a region. -/
  NewSession : String → Except GoError Session
  /-- Error result of `(*ec2.EC2).CreateTags` on a client of the session. -/
  CreateTags : Session → CreateTagsInput → Option GoError
  /-- Error result of `(*ssm.SSM).PutParameter` on a client of the session. -/
  PutParameter : Session → PutParameterInput → Option GoError
  /-- Value of `unicode.SimpleFold` on runes above `unicode.MaxASCII`. -/
  unicodeFold : Nat → Nat

/-- One library call made by the handler. -/
inductive Call where
  | Unmarshal (data : String)
  | Getenv (key : String)
  | NewSession (region : String)
  | Warnf (format : String) (what : String) (err : GoError)
  | CreateTags (sess : Session) (input : CreateTagsInput)
  | PutParameter (sess : Session) (input : PutParameterInput)
deriving DecidableEq, Repr

/-- How an invocation ends. -/
inductive Outcome where
  /-- The handler returned this `error` (`none` is `nil`). -/
  | returned (err : Option GoError)
  /-- The Go runtime raised a panic with this text. -/
  | panicked (text : String)
  /-- The fuel of the model ran out inside `EqualFold`. -/
  | outOfFuel
deriving DecidableEq, Repr

/-- The package-level variables `ec2svc` and `ssmsvc`: the session each client
was built from, `none` for a nil client. -/
structure Globals where
  ec2svc : Option Session
  ssmsvc : Option Session
deriving DecidableEq, Repr

/-- Everything observable about one invocation. -/
structure Run where
  calls : List Call
  globals : Globals
  outcome : Outcome
deriving DecidableEq, Repr

/-! ## Library functions -/

/-- Verb `%d` of package `fmt` applied to an `int`. -/
def fmtD (n : Int) : String :=
  match n with
  | Int.ofNat m => Nat.repr m
  | Int.negSucc m => "-" ++ Nat.repr (m + 1)

/-- Text of the run-time panic for `xs[i]` with `len(xs) = n`. -/
def indexOutOfRange (i n : Nat) : String :=
  "runtime error: index out of range [" ++ Nat.repr i ++ "] with length " ++ Nat.repr n

/-- Constant `utf8.RuneSelf`. -/
def RuneSelf : Nat := 0x80

/-- Table `unicode.asciiFold`: the next rune of the simple-folding orbit of an
ASCII rune. Letters swap case, except that `k` continues to the Kelvin sign
and `s` to the long s. -/
def asciiFold (r : Nat) : Nat :=
  if r = 0x6B then 0x212A
  else if r = 0x73 then 0x017F
  else if 0x41 ≤ r ∧ r ≤ 0x5A then r + 0x20
  else if 0x61 ≤ r ∧ r ≤ 0x7A then r - 0x20
  else r

/-- Function `unicode.SimpleFold`; `uf` stands for the tables consulted above
the ASCII range. -/
def SimpleFold (uf : Nat → Nat) (r : Nat) : Nat :=
  if r > 0x10FFFF then r
  else if r < 0x80 then asciiFold r
  else uf r

/-- The loop `for r != sr && r < tr { r = unicode.SimpleFold(r) }` of
`strings.EqualFold`; one unit of fuel per evaluation of the loop condition. -/
def foldWalk (uf : Nat → Nat) (sr tr : Nat) : Nat → Nat → Option Nat
  | 0, _ => none
  | fuel + 1, r =>
    if r ≠ sr ∧ r < tr then foldWalk uf sr tr fuel (SimpleFold uf r) else some r

/-- The part of `strings.EqualFold` after label `hasUnicode`: a rune by rune
comparison of the two remainders. -/
def equalFoldRunes (uf : Nat → Nat) (fuel : Nat) : List Char → List Char → Option Bool
  | [], t => some t.isEmpty
  | _ :: _, [] => some false
  | sc :: s, tc :: t =>
    if tc.toNat = sc.toNat then equalFoldRunes uf fuel s t
    else
      let sr := min sc.toNat tc.toNat
      let tr := max sc.toNat tc.toNat
      if tr < RuneSelf then
        if 0x41 ≤ sr ∧ sr ≤ 0x5A ∧ tr = sr + 0x20 then equalFoldRunes uf fuel s t
        else some false
      else
        match foldWalk uf sr tr fuel (SimpleFold uf sr) with
        | none => none
        | some r => if r = tr then equalFoldRunes uf fuel s t else some false

/-- The ASCII fast path of `strings.EqualFold`. It runs while both strings
have a byte left and both bytes are below `utf8.RuneSelf`; the first byte of a
character is below `utf8.RuneSelf` exactly when the character is ASCII. When
one string is exhausted the byte lengths agree exactly when the other is
exhausted too. -/
def equalFoldBytes (uf : Nat → Nat) (fuel : Nat) : List Char → List Char → Option Bool
  | sc :: s, tc :: t =>
    if RuneSelf ≤ sc.toNat ∨ RuneSelf ≤ tc.toNat then
      equalFoldRunes uf fuel (sc :: s) (tc :: t)
    else if tc.toNat = sc.toNat then equalFoldBytes uf fuel s t
    else
      let sr := min sc.toNat tc.toNat
      let tr := max sc.toNat tc.toNat
      if 0x41 ≤ sr ∧ sr ≤ 0x5A ∧ tr = sr + 0x20 then equalFoldBytes uf fuel s t
      else some false
  | [], t => some t.isEmpty
  | _ :: _, [] => some false

/-- Function `strings.EqualFold`; `none` when the fuel runs out. -/
def EqualFold (uf : Nat → Nat) (fuel : Nat) (s t : String) : Option Bool :=
  equalFoldBytes uf fuel s.data t.data

/-! ## The program -/

/-- Constant `GOLDENIMAGE` (main.go 25). -/
def GOLDENIMAGE : String := "goldenImage"

/-- Function `getClient` (main.go 53-64): the calls made and the result. -/
def getClient (env : Env) (region : String) : List Call × Except GoError Session :=
  match env.NewSession region with
  | Except.error err =>
    ([Call.NewSession region, Call.Warnf "%s: %+v" "Error creating aws session" err],
      Except.error err)
  | Except.ok sess => ([Call.NewSession region], Except.ok sess)

/-- Local `semanticVersion` (main.go 92): `fmt.Sprintf("%s/%d", ...)`. -/
def semanticVersion (ec2data : Ec2BuilderData) : String :=
  ec2data.Version ++ "/" ++ fmtD ec2data.BuildVersion

/-- Final value of local `imageName` (main.go 93, 98-104), given the result of
the `strings.EqualFold` test. -/
def imageName (golden : Bool) (project role semver : String) : String :=
  if golden then GOLDENIMAGE ++ "-" ++ semver
  else project ++ "-" ++ role ++ "-" ++ semver

/-- Final value of local `amiParameter` (main.go 94, 98-104), given the result
of the `strings.EqualFold` test. -/
def amiParameter (golden : Bool) (project role : String) : String :=
  if golden then "/ec2ImageBuilder" ++ "/" ++ GOLDENIMAGE
  else "/ec2ImageBuilder" ++ "/" ++ project ++ "/" ++ role

/-- The naming block of `HandleRequest` (main.go 92-104) for a notification
whose first distribution is `d`: the pair `(imageName, amiParameter)`. -/
def deriveNames (uf : Nat → Nat) (fuel : Nat) (ec2data : Ec2BuilderData)
    (d : Distribution) : Option (String × String) :=
  let role := d.AmiDistributionConfiguration.AmiTags.Role
  let project := d.AmiDistributionConfiguration.AmiTags.Project
  match EqualFold uf fuel role GOLDENIMAGE with
  | none => none
  | some golden =>
    some (imageName golden project role (semanticVersion ec2data),
      amiParameter golden project role)

/-- The `ec2.CreateTagsInput` literal of main.go 113-137. -/
def createTagsInput (ec2data : Ec2BuilderData) (name amiID : String) : CreateTagsInput :=
  CreateTagsInput.mk
    [Tag.mk "OS" ec2data.OSVersion,
     Tag.mk "Version" ec2data.Version,
     Tag.mk "CostCenter" "engineering",
     Tag.mk "Date" ec2data.DateCreated,
     Tag.mk "Name" name]
    [amiID]

/-- The `ssm.PutParameterInput` literal of main.go 145-150. -/
def putParameterInput (param amiID : String) : PutParameterInput :=
  PutParameterInput.mk param true "SecureString" amiID

/-- Function `HandleRequest` (main.go 66-158). `g` holds the package-level
variables on entry. -/
def HandleRequest (env : Env) (fuel : Nat) (g : Globals) (snsEvent : SNSEvent) : Run :=
  if snsEvent.Records.length ≠ 1 then
    Run.mk [] g (Outcome.returned (some (GoError.mk
      ("got " ++ fmtD snsEvent.Records.length ++ " sets of records for image, expecting 1"))))
  else
  match snsEvent.Records[0]? with
  | none => Run.mk [] g (Outcome.panicked (indexOutOfRange 0 snsEvent.Records.length))
  | some snsRecord =>
  let evntByte := snsRecord.SNS.Message
  let c1 := [Call.Unmarshal evntByte]
  match env.Unmarshal evntByte with
  | Except.error err => Run.mk c1 g (Outcome.returned (some err))
  | Except.ok ec2data =>
  let region := env.Getenv "AWS_REGION"
  let c2 := c1 ++ [Call.Getenv "AWS_REGION"] ++ (getClient env region).1
  match (getClient env region).2 with
  | Except.error err => Run.mk c2 g (Outcome.returned (some err))
  | Except.ok sess =>
  let g1 := Globals.mk (some sess) g.ssmsvc
  match ec2data.DistributionConfiguration.Distrubutions[0]? with
  | none => Run.mk c2 g1 (Outcome.panicked (indexOutOfRange 0 0))
  | some d =>
  match deriveNames env.unicodeFold fuel ec2data d with
  | none => Run.mk c2 g1 Outcome.outOfFuel
  | some (name, param) =>
  match ec2data.OuputResources.Amis[0]? with
  | none => Run.mk c2 g1 (Outcome.panicked (indexOutOfRange 0 0))
  | some ami =>
  let amiID := ami.Image
  if ec2data.State.Status ≠ "AVAILABLE" then
    Run.mk c2 g1 (Outcome.returned (some (GoError.mk
      ("The AMI with id [" ++ amiID ++ "] is not available"))))
  else
  let c3 := c2 ++ [Call.CreateTags sess (createTagsInput ec2data name amiID)]
  match env.CreateTags sess (createTagsInput ec2data name amiID) with
  | some err => Run.mk c3 g1 (Outcome.returned (some err))
  | none =>
  let g2 := Globals.mk (some sess) (some sess)
  let c4 := c3 ++ [Call.PutParameter sess (putParameterInput param amiID)]
  match env.PutParameter sess (putParameterInput param amiID) with
  | some err => Run.mk c4 g2 (Outcome.returned (some err))
  | none => Run.mk c4 g2 (Outcome.returned none)

/-! ## Observations on a run -/

/-- The call is a tag-write (`CreateTags`). -/
def Call.isTagWrite : Call → Bool
  | Call.CreateTags _ _ => true
  | _ => false

/-- The call is a parameter-write (`PutParameter`). -/
def Call.isParameterWrite : Call → Bool
  | Call.PutParameter _ _ => true
  | _ => false

/-- The call reaches a remote service. -/
def Call.isRemote (c : Call) : Bool :=
  c.isTagWrite || c.isParameterWrite

/-- The remote calls of a run, in order. -/
def Run.remoteCalls (r : Run) : List Call :=
  r.calls.filter Call.isRemote

/-- An environment for concrete evaluation: the payload text is ignored and
the notification `d` is what deserialization yields; both remote calls answer
with the given error results. -/
def testEnv (d : Ec2BuilderData) (tagErr paramErr : Option GoError) : Env :=
  Env.mk (fun _ => Except.ok d) (fun _ => "eu-west-1") (fun _ => Except.ok (Session.mk 1))
    (fun _ _ => tagErr) (fun _ _ => paramErr) (fun r => r)

/-- A distribution for concrete evaluation. -/
def sampleDistribution (role project : String) : Distribution :=
  Distribution.mk (AmiDistributionConfiguration.mk (AmiTags.mk role project))

/-- An image entry for concrete evaluation. -/
def sampleAmi : Ami := Ami.mk "ami-0abc"

/-- A notification for concrete evaluation. -/
def sampleData (status role project : String) : Ec2BuilderData :=
  Ec2BuilderData.mk "2020-01-01" "Amazon Linux 2" "1.2.3" 7 (BuilderState.mk status)
    (OuputResources.mk [sampleAmi])
    (DistributionConfiguration.mk [sampleDistribution role project])

/-- A notification with the given lists, for concrete evaluation. -/
def sampleLists (status : String) (ds : List Distribution) (amis : List Ami) : Ec2BuilderData :=
  Ec2BuilderData.mk "2020-01-01" "Amazon Linux 2" "1.2.3" 7 (BuilderState.mk status)
    (OuputResources.mk amis) (DistributionConfiguration.mk ds)

/-- A record for concrete evaluation. -/
def sampleRecord : SNSEventRecord := SNSEventRecord.mk (SNSEntity.mk "payload")

/-- A batch of `n` records with the same payload text. -/
def batch (n : Nat) : SNSEvent :=
  SNSEvent.mk (List.replicate n sampleRecord)

/-! ## Case folding against an ASCII word -/

/-- ASCII lower-casing of a rune; every other rune is left alone. -/
def lowerASCII (r : Nat) : Nat :=
  if 0x41 ≤ r ∧ r ≤ 0x5A then r + 0x20 else r

/-- The rune is an ASCII letter other than `K`, `k`, `S` and `s`, the four
ASCII letters whose folding orbit leaves the ASCII range. -/
def plainLetter (r : Nat) : Prop :=
  ((0x41 ≤ r ∧ r ≤ 0x5A) ∨ (0x61 ≤ r ∧ r ≤ 0x7A)) ∧
    r ≠ 0x4B ∧ r ≠ 0x6B ∧ r ≠ 0x53 ∧ r ≠ 0x73

instance (r : Nat) : Decidable (plainLetter r) := by
  unfold plainLetter; infer_instance

/-! ## Termination and value of the fold test -/

/-- From a plain letter the orbit walk is back at its start after two steps. -/
theorem foldWalk_plainLetter (uf : Nat → Nat) (lo hi fuel : Nat) (hlo : plainLetter lo)
    (hhi : 0x80 ≤ hi) (hfuel : 2 ≤ fuel) :
    foldWalk uf lo hi fuel (SimpleFold uf lo) = some lo := by
  obtain ⟨n, rfl⟩ : ∃ n, fuel = n + 2 := ⟨fuel - 2, by omega⟩
  obtain ⟨hrange, h1, h2, h3, h4⟩ := hlo
  have hasc : SimpleFold uf lo = asciiFold lo := by
    unfold SimpleFold
    rw [if_neg (by omega), if_pos (by omega)]
  rcases hrange with hup | hlow
  · have hf : asciiFold lo = lo + 0x20 := by
      unfold asciiFold
      rw [if_neg h2, if_neg h4, if_pos hup]
    have hb : SimpleFold uf (lo + 0x20) = lo := by
      unfold SimpleFold asciiFold
      rw [if_neg (by omega), if_pos (by omega), if_neg (by omega), if_neg (by omega),
        if_neg (by omega), if_pos (by omega)]
      omega
    rw [hasc, hf, foldWalk, if_pos (by omega), hb, foldWalk, if_neg (by omega)]
  · have hf : asciiFold lo = lo - 0x20 := by
      unfold asciiFold
      rw [if_neg h2, if_neg h4, if_neg (by omega), if_pos hlow]
    have hb : SimpleFold uf (lo - 0x20) = lo := by
      unfold SimpleFold asciiFold
      rw [if_neg (by omega), if_pos (by omega), if_neg (by omega), if_neg (by omega),
        if_pos (by omega)]
      omega
    rw [hasc, hf, foldWalk, if_pos (by omega), hb, foldWalk, if_neg (by omega)]

/-- Against a word of plain letters the rune comparison returns, and its value
is equality after ASCII lower-casing. -/
theorem equalFoldRunes_plain (uf : Nat → Nat) (fuel : Nat) (hfuel : 2 ≤ fuel) :
    ∀ (s t : List Char), (∀ c ∈ t, plainLetter c.toNat) →
      equalFoldRunes uf fuel s t =
        some (decide (s.map (fun c => lowerASCII c.toNat) = t.map (fun c => lowerASCII c.toNat)))
  | [], [], _ => by simp [equalFoldRunes]
  | [], _ :: _, _ => by simp [equalFoldRunes]
  | _ :: _, [], _ => by simp [equalFoldRunes]
  | sc :: s, tc :: t, ht => by
    have htc : plainLetter tc.toNat := ht tc (List.mem_cons_self _ _)
    have ih := equalFoldRunes_plain uf fuel hfuel s t
      (fun c hc => ht c (List.mem_cons_of_mem _ hc))
    obtain ⟨hrange, h1, h2, h3, h4⟩ := htc
    rw [equalFoldRunes]
    by_cases heq : tc.toNat = sc.toNat
    · rw [if_pos heq, ih]
      simp [heq]
    · rw [if_neg heq]
      simp only []
      by_cases hasc : max sc.toNat tc.toNat < RuneSelf
      · rw [if_pos hasc]
        unfold RuneSelf at hasc
        by_cases hc : 0x41 ≤ min sc.toNat tc.toNat ∧ min sc.toNat tc.toNat ≤ 0x5A ∧
            max sc.toNat tc.toNat = min sc.toNat tc.toNat + 0x20
        · rw [if_pos hc, ih]
          have hl : lowerASCII sc.toNat = lowerASCII tc.toNat := by
            unfold lowerASCII
            split_ifs <;> omega
          simp [hl]
        · rw [if_neg hc]
          have hl : lowerASCII sc.toNat ≠ lowerASCII tc.toNat := by
            unfold lowerASCII
            split_ifs <;> omega
          simp [hl]
      · rw [if_neg hasc]
        unfold RuneSelf at hasc
        have hmin : min sc.toNat tc.toNat = tc.toNat := by omega
        have hmax : max sc.toNat tc.toNat = sc.toNat := by omega
        rw [hmin, hmax, foldWalk_plainLetter uf tc.toNat sc.toNat fuel
          ⟨hrange, h1, h2, h3, h4⟩ (by omega) hfuel]
        simp only []
        rw [if_neg heq]
        have hl : lowerASCII sc.toNat ≠ lowerASCII tc.toNat := by
          unfold lowerASCII
          split_ifs <;> omega
        simp [hl]

/-- Against a word of plain letters the fast path returns, and its value is
equality after ASCII lower-casing. -/
theorem equalFoldBytes_plain (uf : Nat → Nat) (fuel : Nat) (hfuel : 2 ≤ fuel) :
    ∀ (s t : List Char), (∀ c ∈ t, plainLetter c.toNat) →
      equalFoldBytes uf fuel s t =
        some (decide (s.map (fun c => lowerASCII c.toNat) = t.map (fun c => lowerASCII c.toNat)))
  | [], [], _ => by simp [equalFoldBytes]
  | [], _ :: _, _ => by simp [equalFoldBytes]
  | _ :: _, [], _ => by simp [equalFoldBytes]
  | sc :: s, tc :: t, ht => by
    have ih := equalFoldBytes_plain uf fuel hfuel s t
      (fun c hc => ht c (List.mem_cons_of_mem _ hc))
    rw [equalFoldBytes]
    by_cases hu : RuneSelf ≤ sc.toNat ∨ RuneSelf ≤ tc.toNat
    · rw [if_pos hu]
      exact equalFoldRunes_plain uf fuel hfuel (sc :: s) (tc :: t) ht
    · rw [if_neg hu]
      unfold RuneSelf at hu
      by_cases heq : tc.toNat = sc.toNat
      · rw [if_pos heq, ih]
        simp [heq]
      · rw [if_neg heq]
        simp only []
        by_cases hc : 0x41 ≤ min sc.toNat tc.toNat ∧ min sc.toNat tc.toNat ≤ 0x5A ∧
            max sc.toNat tc.toNat = min sc.toNat tc.toNat + 0x20
        · rw [if_pos hc, ih]
          have hl : lowerASCII sc.toNat = lowerASCII tc.toNat := by
            unfold lowerASCII
            split_ifs <;> omega
          simp [hl]
        · rw [if_neg hc]
          have hl : lowerASCII sc.toNat ≠ lowerASCII tc.toNat := by
            unfold lowerASCII
            split_ifs <;> omega
          simp [hl]

/-- Every character of `GOLDENIMAGE` is a plain letter. -/
theorem GOLDENIMAGE_plain : ∀ c ∈ GOLDENIMAGE.data, plainLetter c.toNat := by
  decide

/-- With two units of fuel `strings.EqualFold(role, GOLDENIMAGE)` always
returns, and its value is equality after ASCII lower-casing, whatever the
Unicode tables say. -/
theorem EqualFold_GOLDENIMAGE (uf : Nat → Nat) (fuel : Nat) (hfuel : 2 ≤ fuel) (role : String) :
    EqualFold uf fuel role GOLDENIMAGE =
      some (decide (role.data.map (fun c => lowerASCII c.toNat) =
        GOLDENIMAGE.data.map (fun c => lowerASCII c.toNat))) :=
  equalFoldBytes_plain uf fuel hfuel role.data GOLDENIMAGE.data GOLDENIMAGE_plain

/-- The naming block returns a pair as soon as the fold test returns. -/
theorem deriveNames_of_fold (uf : Nat → Nat) (fuel : Nat) (ec2data : Ec2BuilderData)
    (d : Distribution) (golden : Bool)
    (h : EqualFold uf fuel d.AmiDistributionConfiguration.AmiTags.Role GOLDENIMAGE = some golden) :
    deriveNames uf fuel ec2data d =
      some (imageName golden d.AmiDistributionConfiguration.AmiTags.Project
          d.AmiDistributionConfiguration.AmiTags.Role (semanticVersion ec2data),
        amiParameter golden d.AmiDistributionConfiguration.AmiTags.Project
          d.AmiDistributionConfiguration.AmiTags.Role) := by
  simp only [deriveNames, h]

/-- With two units of fuel the naming block always returns a pair. -/
theorem deriveNames_total (uf : Nat → Nat) (fuel : Nat) (hfuel : 2 ≤ fuel)
    (ec2data : Ec2BuilderData) (d : Distribution) :
    ∃ name param, deriveNames uf fuel ec2data d = some (name, param) :=
  ⟨_, _, deriveNames_of_fold uf fuel ec2data d _
    (EqualFold_GOLDENIMAGE uf fuel hfuel d.AmiDistributionConfiguration.AmiTags.Role)⟩

/-- With two units of fuel `HandleRequest` always ends by returning or by a
panic: the fuel never runs out, whatever the batch and the library answer. -/
theorem HandleRequest_fuel (env : Env) (fuel : Nat) (hfuel : 2 ≤ fuel) (g : Globals)
    (snsEvent : SNSEvent) :
    (HandleRequest env fuel g snsEvent).outcome ≠ Outcome.outOfFuel := by
  simp only [HandleRequest]
  repeat' split
  all_goals first
    | (intro h; cases h; done)
    | (rename_i ec2data _ _ _ _ _ d _ _ hnone
       obtain ⟨name, param, hd⟩ := deriveNames_total env.unicodeFold fuel hfuel ec2data d
       rw [hd] at hnone
       cases hnone)

/-- The not-available path of `HandleRequest`: its outcome. -/
theorem HandleRequest_not_available_outcome (env : Env) (fuel : Nat) (hfuel : 2 ≤ fuel) (g : Globals)
    (snsEvent : SNSEvent) (snsRecord : SNSEventRecord) (ec2data : Ec2BuilderData)
    (sess : Session) (d : Distribution) (ds : List Distribution) (ami : Ami) (amis : List Ami)
    (hrec : snsEvent.Records = [snsRecord])
    (hjson : env.Unmarshal snsRecord.SNS.Message = Except.ok ec2data)
    (hsess : env.NewSession (env.Getenv "AWS_REGION") = Except.ok sess)
    (hdist : ec2data.DistributionConfiguration.Distrubutions = d :: ds)
    (hamis : ec2data.OuputResources.Amis = ami :: amis)
    (hstatus : ec2data.State.Status ≠ "AVAILABLE") :
    (HandleRequest env fuel g snsEvent).outcome =
        Outcome.returned (some (GoError.mk
          ("The AMI with id [" ++ ami.Image ++ "] is not available"))) := by
  obtain ⟨name, param, hd⟩ := deriveNames_total env.unicodeFold fuel hfuel ec2data d
  simp [HandleRequest, hrec, hjson, getClient, hsess, hdist, hd, hamis, hstatus]

/-- A non-golden parameter path has a slash after the fixed root, the golden
one has none. -/
theorem amiParameter_other_ne (project role : String) :
    amiParameter false project role ≠ "/ec2ImageBuilder/goldenImage" := by
  intro h
  have h2 := congrArg String.data h
  simp only [amiParameter, Bool.false_eq_true, if_false, String.data_append] at h2
  simp at h2
  have hmem : '/' ∈ GOLDENIMAGE.data := by
    have e1 : GOLDENIMAGE.data = ['g', 'o', 'l', 'd', 'e', 'n', 'I', 'm', 'a', 'g', 'e'] := by
      decide
    rw [e1, ← h2]
    simp
  exact absurd hmem (by decide)

/-! ## The claims -/

/-- C1: a batch whose number of records is not 1 makes `HandleRequest` return
the error "got N sets of records for image, expecting 1" with N the decimal
record count, without making any library call at all (no deserialization, no
session acquisition, no tag-write, no parameter-write). -/
theorem C1_cardinality_error (env : Env) (fuel : Nat) (g : Globals) (snsEvent : SNSEvent)
    (h : snsEvent.Records.length ≠ 1) :
    (HandleRequest env fuel g snsEvent).outcome =
        Outcome.returned (some (GoError.mk
          ("got " ++ Nat.repr snsEvent.Records.length ++
            " sets of records for image, expecting 1"))) ∧
      (HandleRequest env fuel g snsEvent).calls = [] := by
  unfold HandleRequest
  rw [if_pos h]
  exact ⟨rfl, rfl⟩

/-- Witness of C1 on the empty batch and on a batch of three records. -/
theorem C1_cardinality_error_witness :
    ((batch 0).Records.length ≠ 1 ∧
      (HandleRequest (testEnv (sampleData "AVAILABLE" "webserver" "acme") none none) 0
          (Globals.mk none none) (batch 0)).outcome =
        Outcome.returned (some (GoError.mk "got 0 sets of records for image, expecting 1")) ∧
      (HandleRequest (testEnv (sampleData "AVAILABLE" "webserver" "acme") none none) 0
          (Globals.mk none none) (batch 0)).calls = []) ∧
    ((batch 3).Records.length ≠ 1 ∧
      (HandleRequest (testEnv (sampleData "AVAILABLE" "webserver" "acme") none none) 0
          (Globals.mk none none) (batch 3)).outcome =
        Outcome.returned (some (GoError.mk "got 3 sets of records for image, expecting 1")) ∧
      (HandleRequest (testEnv (sampleData "AVAILABLE" "webserver" "acme") none none) 0
          (Globals.mk none none) (batch 3)).calls = []) :=
  ⟨⟨by decide, C1_cardinality_error _ 0 _ (batch 0) (by decide)⟩,
    ⟨by decide, C1_cardinality_error _ 0 _ (batch 3) (by decide)⟩⟩

/-- C2: when `strings.EqualFold(role, GOLDENIMAGE)` holds for the role of the
first distribution, the derived image name is "goldenImage-" followed by the
version, a slash and the decimal build version, and the derived parameter path
is "/ec2ImageBuilder/goldenImage"; the same pair results for every other
project value; and the roles "GoldenImage", "GOLDENIMAGE" and "goldenimage"
all pass the test. -/
theorem C2_golden_names (uf : Nat → Nat) (fuel : Nat) (ec2data : Ec2BuilderData)
    (role project : String)
    (h : EqualFold uf fuel role GOLDENIMAGE = some true) :
    deriveNames uf fuel ec2data
        (Distribution.mk (AmiDistributionConfiguration.mk (AmiTags.mk role project))) =
      some ("goldenImage-" ++ ec2data.Version ++ "/" ++ fmtD ec2data.BuildVersion,
        "/ec2ImageBuilder/goldenImage") ∧
    (∀ project2 : String,
      deriveNames uf fuel ec2data
          (Distribution.mk (AmiDistributionConfiguration.mk (AmiTags.mk role project2))) =
        deriveNames uf fuel ec2data
          (Distribution.mk (AmiDistributionConfiguration.mk (AmiTags.mk role project)))) ∧
    EqualFold uf fuel "GoldenImage" GOLDENIMAGE = some true ∧
    EqualFold uf fuel "GOLDENIMAGE" GOLDENIMAGE = some true ∧
    EqualFold uf fuel "goldenimage" GOLDENIMAGE = some true := by
  have key : ∀ p : String,
      deriveNames uf fuel ec2data
          (Distribution.mk (AmiDistributionConfiguration.mk (AmiTags.mk role p))) =
        some ("goldenImage-" ++ ec2data.Version ++ "/" ++ fmtD ec2data.BuildVersion,
          "/ec2ImageBuilder/goldenImage") := by
    intro p
    rw [deriveNames_of_fold uf fuel ec2data _ true h]
    simp only [imageName, amiParameter, semanticVersion, if_true]
    have e1 : GOLDENIMAGE ++ "-" = "goldenImage-" := by decide
    have e2 : "/ec2ImageBuilder" ++ "/" ++ GOLDENIMAGE = "/ec2ImageBuilder/goldenImage" := by
      decide
    rw [e2, ← e1]
    simp only [String.append_assoc]
  refine ⟨key project, fun p => (key p).trans (key project).symm, ?_, ?_, ?_⟩ <;> rfl

/-- Witness of C2 on the role "GoldenImage" with a negative build version. -/
theorem C2_golden_names_witness :
    EqualFold (fun r => r) 0 "GoldenImage" GOLDENIMAGE = some true ∧
    deriveNames (fun r => r) 0
        (Ec2BuilderData.mk "d" "os" "1.2.3" (-12) (BuilderState.mk "AVAILABLE")
          (OuputResources.mk []) (DistributionConfiguration.mk []))
        (Distribution.mk (AmiDistributionConfiguration.mk (AmiTags.mk "GoldenImage" "acme"))) =
      some ("goldenImage-1.2.3/-12", "/ec2ImageBuilder/goldenImage") :=
  ⟨by decide,
    (C2_golden_names (fun r => r) 0
      (Ec2BuilderData.mk "d" "os" "1.2.3" (-12) (BuilderState.mk "AVAILABLE")
        (OuputResources.mk []) (DistributionConfiguration.mk []))
      "GoldenImage" "acme" (by decide)).1.trans (by decide)⟩

/-- C3: when `strings.EqualFold(role, GOLDENIMAGE)` fails for the role of the
first distribution, the derived image name is project, "-", role, "-", version,
"/", decimal build version, and the derived parameter path is
"/ec2ImageBuilder/", project, "/", role, both with project and role verbatim;
for role "webserver", project "acme", version "1.2.3" and build version 7 this
is "acme-webserver-1.2.3/7" and "/ec2ImageBuilder/acme/webserver". -/
theorem C3_other_names (uf : Nat → Nat) (fuel : Nat) (ec2data : Ec2BuilderData)
    (role project : String)
    (h : EqualFold uf fuel role GOLDENIMAGE = some false) :
    deriveNames uf fuel ec2data
        (Distribution.mk (AmiDistributionConfiguration.mk (AmiTags.mk role project))) =
      some (project ++ "-" ++ role ++ "-" ++ ec2data.Version ++ "/" ++
          fmtD ec2data.BuildVersion,
        "/ec2ImageBuilder/" ++ project ++ "/" ++ role) ∧
    deriveNames uf fuel (sampleData "AVAILABLE" "webserver" "acme")
        (Distribution.mk (AmiDistributionConfiguration.mk (AmiTags.mk "webserver" "acme"))) =
      some ("acme-webserver-1.2.3/7", "/ec2ImageBuilder/acme/webserver") := by
  constructor
  · rw [deriveNames_of_fold uf fuel ec2data _ false h]
    simp only [imageName, amiParameter, semanticVersion, Bool.false_eq_true, if_false]
    have e2 : "/ec2ImageBuilder" ++ "/" = "/ec2ImageBuilder/" := by decide
    rw [e2]
    simp only [String.append_assoc]
  · rfl

/-- Witness of C3 on role "WebServer" and project "Acme". -/
theorem C3_other_names_witness :
    EqualFold (fun r => r) 0 "WebServer" GOLDENIMAGE = some false ∧
    deriveNames (fun r => r) 0 (sampleData "AVAILABLE" "WebServer" "Acme")
        (Distribution.mk (AmiDistributionConfiguration.mk (AmiTags.mk "WebServer" "Acme"))) =
      some ("Acme-WebServer-1.2.3/7", "/ec2ImageBuilder/Acme/WebServer") :=
  ⟨by decide,
    (C3_other_names (fun r => r) 0 (sampleData "AVAILABLE" "WebServer" "Acme")
      "WebServer" "Acme" (by decide)).1.trans (by decide)⟩

/-- C4: for a single-record batch whose payload deserializes, whose session
is obtained and whose distributions and images lists are non-empty, a status
other than "AVAILABLE" makes `HandleRequest` return the error
"The AMI with id [ID] is not available" with ID the first image identifier,
after the calls Unmarshal, Getenv, NewSession only: no tag-write and no
parameter-write is issued. -/
theorem C4_not_available (env : Env) (fuel : Nat) (hfuel : 2 ≤ fuel) (g : Globals)
    (snsEvent : SNSEvent) (snsRecord : SNSEventRecord) (ec2data : Ec2BuilderData)
    (sess : Session) (d : Distribution) (ds : List Distribution) (ami : Ami) (amis : List Ami)
    (hrec : snsEvent.Records = [snsRecord])
    (hjson : env.Unmarshal snsRecord.SNS.Message = Except.ok ec2data)
    (hsess : env.NewSession (env.Getenv "AWS_REGION") = Except.ok sess)
    (hdist : ec2data.DistributionConfiguration.Distrubutions = d :: ds)
    (hamis : ec2data.OuputResources.Amis = ami :: amis)
    (hstatus : ec2data.State.Status ≠ "AVAILABLE") :
    (HandleRequest env fuel g snsEvent).outcome =
        Outcome.returned (some (GoError.mk
          ("The AMI with id [" ++ ami.Image ++ "] is not available"))) ∧
      (HandleRequest env fuel g snsEvent).calls =
        [Call.Unmarshal snsRecord.SNS.Message, Call.Getenv "AWS_REGION",
          Call.NewSession (env.Getenv "AWS_REGION")] ∧
      (HandleRequest env fuel g snsEvent).calls.filter Call.isTagWrite = [] ∧
      (HandleRequest env fuel g snsEvent).calls.filter Call.isParameterWrite = [] := by
  obtain ⟨name, param, hd⟩ := deriveNames_total env.unicodeFold fuel hfuel ec2data d
  simp [HandleRequest, hrec, hjson, getClient, hsess, hdist, hd, hamis, hstatus,
    Call.isTagWrite, Call.isParameterWrite]

/-- Witness of C4 on the statuses "PENDING", "" and "available". -/
theorem C4_not_available_witness :
    ("PENDING" ≠ "AVAILABLE" ∧
      (HandleRequest (testEnv (sampleData "PENDING" "webserver" "acme") none none) 2
          (Globals.mk none none) (batch 1)).outcome =
        Outcome.returned (some (GoError.mk "The AMI with id [ami-0abc] is not available"))) ∧
    ("" ≠ "AVAILABLE" ∧
      (HandleRequest (testEnv (sampleData "" "goldenImage" "acme") none none) 2
          (Globals.mk none none) (batch 1)).outcome =
        Outcome.returned (some (GoError.mk "The AMI with id [ami-0abc] is not available"))) ∧
    ("available" ≠ "AVAILABLE" ∧
      (HandleRequest (testEnv (sampleData "available" "webserver" "acme") none none) 2
          (Globals.mk none none) (batch 1)).outcome =
        Outcome.returned (some (GoError.mk "The AMI with id [ami-0abc] is not available")) ∧
      (HandleRequest (testEnv (sampleData "available" "webserver" "acme") none none) 2
          (Globals.mk none none) (batch 1)).calls =
        [Call.Unmarshal "payload", Call.Getenv "AWS_REGION", Call.NewSession "eu-west-1"]) :=
  ⟨⟨by decide,
      (C4_not_available (testEnv (sampleData "PENDING" "webserver" "acme") none none) 2
        (by decide) (Globals.mk none none) (batch 1) sampleRecord
        (sampleData "PENDING" "webserver" "acme") (Session.mk 1)
        (sampleDistribution "webserver" "acme") [] sampleAmi [] rfl rfl rfl rfl rfl
        (by decide)).1⟩,
    ⟨by decide,
      (C4_not_available (testEnv (sampleData "" "goldenImage" "acme") none none) 2
        (by decide) (Globals.mk none none) (batch 1) sampleRecord
        (sampleData "" "goldenImage" "acme") (Session.mk 1)
        (sampleDistribution "goldenImage" "acme") [] sampleAmi [] rfl rfl rfl rfl rfl
        (by decide)).1⟩,
    ⟨by decide,
      (C4_not_available (testEnv (sampleData "available" "webserver" "acme") none none) 2
        (by decide) (Globals.mk none none) (batch 1) sampleRecord
        (sampleData "available" "webserver" "acme") (Session.mk 1)
        (sampleDistribution "webserver" "acme") [] sampleAmi [] rfl rfl rfl rfl rfl
        (by decide)).1,
      (C4_not_available (testEnv (sampleData "available" "webserver" "acme") none none) 2
        (by decide) (Globals.mk none none) (batch 1) sampleRecord
        (sampleData "available" "webserver" "acme") (Session.mk 1)
        (sampleDistribution "webserver" "acme") [] sampleAmi [] rfl rfl rfl rfl rfl
        (by decide)).2.1⟩⟩

/-- C5: an invocation that reaches the tag-write step (single record, payload
deserialized, session obtained, non-empty lists, status "AVAILABLE") issues
exactly one tag-write, whatever the two remote calls answer; its only resource
is the first image identifier and its tags are, in this order, OS = osVersion,
Version = version, CostCenter = "engineering", Date = dateCreated and
Name = the derived image name. -/
theorem C5_tag_request (env : Env) (fuel : Nat) (hfuel : 2 ≤ fuel) (g : Globals)
    (snsEvent : SNSEvent) (snsRecord : SNSEventRecord) (ec2data : Ec2BuilderData)
    (sess : Session) (d : Distribution) (ds : List Distribution) (ami : Ami) (amis : List Ami)
    (hrec : snsEvent.Records = [snsRecord])
    (hjson : env.Unmarshal snsRecord.SNS.Message = Except.ok ec2data)
    (hsess : env.NewSession (env.Getenv "AWS_REGION") = Except.ok sess)
    (hdist : ec2data.DistributionConfiguration.Distrubutions = d :: ds)
    (hamis : ec2data.OuputResources.Amis = ami :: amis)
    (hstatus : ec2data.State.Status = "AVAILABLE") :
    ∃ name param, deriveNames env.unicodeFold fuel ec2data d = some (name, param) ∧
      (HandleRequest env fuel g snsEvent).calls.filter Call.isTagWrite =
        [Call.CreateTags sess (CreateTagsInput.mk
          [Tag.mk "OS" ec2data.OSVersion,
           Tag.mk "Version" ec2data.Version,
           Tag.mk "CostCenter" "engineering",
           Tag.mk "Date" ec2data.DateCreated,
           Tag.mk "Name" name]
          [ami.Image])] := by
  obtain ⟨name, param, hd⟩ := deriveNames_total env.unicodeFold fuel hfuel ec2data d
  have key : (HandleRequest env fuel g snsEvent).calls.filter Call.isTagWrite =
      [Call.CreateTags sess (createTagsInput ec2data name ami.Image)] := by
    cases htag : env.CreateTags sess (createTagsInput ec2data name ami.Image) with
    | some e =>
      simp [HandleRequest, hrec, hjson, getClient, hsess, hdist, hd, hamis, hstatus, htag,
        Call.isTagWrite]
    | none =>
      cases hput : env.PutParameter sess (putParameterInput param ami.Image) <;>
        simp [HandleRequest, hrec, hjson, getClient, hsess, hdist, hd, hamis, hstatus, htag,
          hput, Call.isTagWrite]
  exact ⟨name, param, hd, key⟩

/-- Witness of C5 on a web-server notification. -/
theorem C5_tag_request_witness :
    (sampleData "AVAILABLE" "webserver" "acme").State.Status = "AVAILABLE" ∧
    (HandleRequest (testEnv (sampleData "AVAILABLE" "webserver" "acme") none none) 2
        (Globals.mk none none) (batch 1)).calls.filter Call.isTagWrite =
      [Call.CreateTags (Session.mk 1) (CreateTagsInput.mk
        [Tag.mk "OS" "Amazon Linux 2",
         Tag.mk "Version" "1.2.3",
         Tag.mk "CostCenter" "engineering",
         Tag.mk "Date" "2020-01-01",
         Tag.mk "Name" "acme-webserver-1.2.3/7"]
        ["ami-0abc"])] := by
  obtain ⟨name, param, hd, h⟩ :=
    C5_tag_request (testEnv (sampleData "AVAILABLE" "webserver" "acme") none none) 2
      (by decide) (Globals.mk none none) (batch 1) sampleRecord
      (sampleData "AVAILABLE" "webserver" "acme") (Session.mk 1)
      (sampleDistribution "webserver" "acme") [] sampleAmi [] rfl rfl rfl rfl rfl rfl
  have hd2 : some ("acme-webserver-1.2.3/7", "/ec2ImageBuilder/acme/webserver") =
      some (name, param) := hd
  simp only [Option.some.injEq, Prod.mk.injEq] at hd2
  obtain ⟨rfl, rfl⟩ := hd2
  exact ⟨rfl, h⟩

/-- C6: in an invocation that reaches the tag-write step and whose tag-write
succeeds, exactly one parameter-write is issued, with name = the derived
parameter path, overwrite = true, type = "SecureString" and value = the first
image identifier; when that write succeeds too, `HandleRequest` returns nil. -/
theorem C6_parameter_request (env : Env) (fuel : Nat) (hfuel : 2 ≤ fuel) (g : Globals)
    (snsEvent : SNSEvent) (snsRecord : SNSEventRecord) (ec2data : Ec2BuilderData)
    (sess : Session) (d : Distribution) (ds : List Distribution) (ami : Ami) (amis : List Ami)
    (hrec : snsEvent.Records = [snsRecord])
    (hjson : env.Unmarshal snsRecord.SNS.Message = Except.ok ec2data)
    (hsess : env.NewSession (env.Getenv "AWS_REGION") = Except.ok sess)
    (hdist : ec2data.DistributionConfiguration.Distrubutions = d :: ds)
    (hamis : ec2data.OuputResources.Amis = ami :: amis)
    (hstatus : ec2data.State.Status = "AVAILABLE") :
    ∃ name param, deriveNames env.unicodeFold fuel ec2data d = some (name, param) ∧
      (env.CreateTags sess (createTagsInput ec2data name ami.Image) = none →
        (HandleRequest env fuel g snsEvent).calls.filter Call.isParameterWrite =
            [Call.PutParameter sess
              (PutParameterInput.mk param true "SecureString" ami.Image)] ∧
          (env.PutParameter sess (PutParameterInput.mk param true "SecureString" ami.Image) =
              none →
            (HandleRequest env fuel g snsEvent).outcome = Outcome.returned none)) := by
  obtain ⟨name, param, hd⟩ := deriveNames_total env.unicodeFold fuel hfuel ec2data d
  refine ⟨name, param, hd, fun htag => ?_⟩
  cases hput : env.PutParameter sess (putParameterInput param ami.Image) <;>
    simp [HandleRequest, hrec, hjson, getClient, hsess, hdist, hd, hamis, hstatus, htag,
      hput, Call.isParameterWrite] <;>
    simp_all [putParameterInput]

/-- Witness of C6 on a golden-image notification with both writes succeeding. -/
theorem C6_parameter_request_witness :
    (sampleData "AVAILABLE" "GoldenImage" "acme").State.Status = "AVAILABLE" ∧
    (HandleRequest (testEnv (sampleData "AVAILABLE" "GoldenImage" "acme") none none) 2
        (Globals.mk none none) (batch 1)).calls.filter Call.isParameterWrite =
      [Call.PutParameter (Session.mk 1)
        (PutParameterInput.mk "/ec2ImageBuilder/goldenImage" true "SecureString" "ami-0abc")] ∧
    (HandleRequest (testEnv (sampleData "AVAILABLE" "GoldenImage" "acme") none none) 2
        (Globals.mk none none) (batch 1)).outcome = Outcome.returned none := by
  obtain ⟨name, param, hd, h⟩ :=
    C6_parameter_request (testEnv (sampleData "AVAILABLE" "GoldenImage" "acme") none none) 2
      (by decide) (Globals.mk none none) (batch 1) sampleRecord
      (sampleData "AVAILABLE" "GoldenImage" "acme") (Session.mk 1)
      (sampleDistribution "GoldenImage" "acme") [] sampleAmi [] rfl rfl rfl rfl rfl rfl
  have hd2 : some ("goldenImage-1.2.3/7", "/ec2ImageBuilder/goldenImage") =
      some (name, param) := hd
  simp only [Option.some.injEq, Prod.mk.injEq] at hd2
  obtain ⟨rfl, rfl⟩ := hd2
  exact ⟨rfl, (h rfl).1, (h rfl).2 rfl⟩

/-- C7: in an invocation that reaches the tag-write step, a tag-write that
fails with error `e` makes `HandleRequest` return `e`; the tag-write was
issued exactly once and no parameter-write was issued. -/
theorem C7_tag_failure (env : Env) (fuel : Nat) (hfuel : 2 ≤ fuel) (g : Globals)
    (snsEvent : SNSEvent) (snsRecord : SNSEventRecord) (ec2data : Ec2BuilderData)
    (sess : Session) (d : Distribution) (ds : List Distribution) (ami : Ami) (amis : List Ami)
    (hrec : snsEvent.Records = [snsRecord])
    (hjson : env.Unmarshal snsRecord.SNS.Message = Except.ok ec2data)
    (hsess : env.NewSession (env.Getenv "AWS_REGION") = Except.ok sess)
    (hdist : ec2data.DistributionConfiguration.Distrubutions = d :: ds)
    (hamis : ec2data.OuputResources.Amis = ami :: amis)
    (hstatus : ec2data.State.Status = "AVAILABLE") :
    ∃ name param, deriveNames env.unicodeFold fuel ec2data d = some (name, param) ∧
      ∀ e : GoError, env.CreateTags sess (createTagsInput ec2data name ami.Image) = some e →
        (HandleRequest env fuel g snsEvent).outcome = Outcome.returned (some e) ∧
        (HandleRequest env fuel g snsEvent).calls.filter Call.isTagWrite =
          [Call.CreateTags sess (createTagsInput ec2data name ami.Image)] ∧
        (HandleRequest env fuel g snsEvent).calls.filter Call.isParameterWrite = [] := by
  obtain ⟨name, param, hd⟩ := deriveNames_total env.unicodeFold fuel hfuel ec2data d
  refine ⟨name, param, hd, fun e htag => ?_⟩
  simp [HandleRequest, hrec, hjson, getClient, hsess, hdist, hd, hamis, hstatus, htag,
    Call.isTagWrite, Call.isParameterWrite]

/-- Witness of C7 with a tag-write that fails. -/
theorem C7_tag_failure_witness :
    (testEnv (sampleData "AVAILABLE" "webserver" "acme") (some (GoError.mk "RequestError"))
        none).CreateTags (Session.mk 1)
      (createTagsInput (sampleData "AVAILABLE" "webserver" "acme") "acme-webserver-1.2.3/7"
        "ami-0abc") = some (GoError.mk "RequestError") ∧
    (HandleRequest (testEnv (sampleData "AVAILABLE" "webserver" "acme")
        (some (GoError.mk "RequestError")) none) 2
        (Globals.mk none none) (batch 1)).outcome =
      Outcome.returned (some (GoError.mk "RequestError")) ∧
    (HandleRequest (testEnv (sampleData "AVAILABLE" "webserver" "acme")
        (some (GoError.mk "RequestError")) none) 2
        (Globals.mk none none) (batch 1)).calls.filter Call.isParameterWrite = [] := by
  obtain ⟨name, param, hd, h⟩ :=
    C7_tag_failure (testEnv (sampleData "AVAILABLE" "webserver" "acme")
        (some (GoError.mk "RequestError")) none) 2
      (by decide) (Globals.mk none none) (batch 1) sampleRecord
      (sampleData "AVAILABLE" "webserver" "acme") (Session.mk 1)
      (sampleDistribution "webserver" "acme") [] sampleAmi [] rfl rfl rfl rfl rfl rfl
  exact ⟨rfl, (h (GoError.mk "RequestError") rfl).1, (h (GoError.mk "RequestError") rfl).2.2⟩

/-- C8: in an invocation whose tag-write succeeds and whose parameter-write
fails with error `e`, `HandleRequest` returns `e` and the calls made are
Unmarshal, Getenv, NewSession, the tag-write and the parameter-write, in this
order and nothing after: the remote calls are exactly tag-write then
parameter-write, with no compensating or repeated call. -/
theorem C8_parameter_failure (env : Env) (fuel : Nat) (hfuel : 2 ≤ fuel) (g : Globals)
    (snsEvent : SNSEvent) (snsRecord : SNSEventRecord) (ec2data : Ec2BuilderData)
    (sess : Session) (d : Distribution) (ds : List Distribution) (ami : Ami) (amis : List Ami)
    (hrec : snsEvent.Records = [snsRecord])
    (hjson : env.Unmarshal snsRecord.SNS.Message = Except.ok ec2data)
    (hsess : env.NewSession (env.Getenv "AWS_REGION") = Except.ok sess)
    (hdist : ec2data.DistributionConfiguration.Distrubutions = d :: ds)
    (hamis : ec2data.OuputResources.Amis = ami :: amis)
    (hstatus : ec2data.State.Status = "AVAILABLE") :
    ∃ name param, deriveNames env.unicodeFold fuel ec2data d = some (name, param) ∧
      ∀ e : GoError, env.CreateTags sess (createTagsInput ec2data name ami.Image) = none →
        env.PutParameter sess (putParameterInput param ami.Image) = some e →
        (HandleRequest env fuel g snsEvent).outcome = Outcome.returned (some e) ∧
        (HandleRequest env fuel g snsEvent).calls =
          [Call.Unmarshal snsRecord.SNS.Message, Call.Getenv "AWS_REGION",
            Call.NewSession (env.Getenv "AWS_REGION"),
            Call.CreateTags sess (createTagsInput ec2data name ami.Image),
            Call.PutParameter sess (putParameterInput param ami.Image)] ∧
        (HandleRequest env fuel g snsEvent).remoteCalls =
          [Call.CreateTags sess (createTagsInput ec2data name ami.Image),
            Call.PutParameter sess (putParameterInput param ami.Image)] := by
  obtain ⟨name, param, hd⟩ := deriveNames_total env.unicodeFold fuel hfuel ec2data d
  refine ⟨name, param, hd, fun e htag hput => ?_⟩
  simp [HandleRequest, hrec, hjson, getClient, hsess, hdist, hd, hamis, hstatus, htag, hput,
    Run.remoteCalls, Call.isRemote, Call.isTagWrite, Call.isParameterWrite]

/-- Witness of C8 with a tag-write that succeeds and a parameter-write that
fails. -/
theorem C8_parameter_failure_witness :
    (HandleRequest (testEnv (sampleData "AVAILABLE" "webserver" "acme") none
        (some (GoError.mk "AccessDenied"))) 2
        (Globals.mk none none) (batch 1)).outcome =
      Outcome.returned (some (GoError.mk "AccessDenied")) ∧
    (HandleRequest (testEnv (sampleData "AVAILABLE" "webserver" "acme") none
        (some (GoError.mk "AccessDenied"))) 2
        (Globals.mk none none) (batch 1)).remoteCalls =
      [Call.CreateTags (Session.mk 1)
          (createTagsInput (sampleData "AVAILABLE" "webserver" "acme")
            "acme-webserver-1.2.3/7" "ami-0abc"),
        Call.PutParameter (Session.mk 1)
          (putParameterInput "/ec2ImageBuilder/acme/webserver" "ami-0abc")] := by
  obtain ⟨name, param, hd, h⟩ :=
    C8_parameter_failure (testEnv (sampleData "AVAILABLE" "webserver" "acme") none
        (some (GoError.mk "AccessDenied"))) 2
      (by decide) (Globals.mk none none) (batch 1) sampleRecord
      (sampleData "AVAILABLE" "webserver" "acme") (Session.mk 1)
      (sampleDistribution "webserver" "acme") [] sampleAmi [] rfl rfl rfl rfl rfl rfl
  have hd2 : some ("acme-webserver-1.2.3/7", "/ec2ImageBuilder/acme/webserver") =
      some (name, param) := hd
  simp only [Option.some.injEq, Prod.mk.injEq] at hd2
  obtain ⟨rfl, rfl⟩ := hd2
  exact ⟨(h (GoError.mk "AccessDenied") rfl rfl).1, (h (GoError.mk "AccessDenied") rfl rfl).2.2⟩

/-- C9: for a single-record batch whose payload deserializes and whose session
is obtained, an empty distributions list or an empty images list makes
`HandleRequest` end in the panic "index out of range [0] with length 0",
whatever the status is, with no remote call made; when both lists are
non-empty it ends by returning (an error or nil), never in a panic. -/
theorem C9_index_fault (env : Env) (fuel : Nat) (hfuel : 2 ≤ fuel) (g : Globals)
    (snsEvent : SNSEvent) (snsRecord : SNSEventRecord) (ec2data : Ec2BuilderData)
    (sess : Session)
    (hrec : snsEvent.Records = [snsRecord])
    (hjson : env.Unmarshal snsRecord.SNS.Message = Except.ok ec2data)
    (hsess : env.NewSession (env.Getenv "AWS_REGION") = Except.ok sess) :
    ((ec2data.DistributionConfiguration.Distrubutions = [] ∨
        ec2data.OuputResources.Amis = []) →
      (HandleRequest env fuel g snsEvent).outcome =
          Outcome.panicked "runtime error: index out of range [0] with length 0" ∧
        (HandleRequest env fuel g snsEvent).remoteCalls = []) ∧
    ((ec2data.DistributionConfiguration.Distrubutions ≠ [] ∧
        ec2data.OuputResources.Amis ≠ []) →
      ∃ err, (HandleRequest env fuel g snsEvent).outcome = Outcome.returned err) := by
  have hmsg : indexOutOfRange 0 0 = "runtime error: index out of range [0] with length 0" := by
    decide
  constructor
  · intro hempty
    cases hdist : ec2data.DistributionConfiguration.Distrubutions with
    | nil =>
      simp [HandleRequest, hrec, hjson, getClient, hsess, hdist, hmsg, Run.remoteCalls,
        Call.isRemote, Call.isTagWrite, Call.isParameterWrite]
    | cons d ds =>
      have hamis : ec2data.OuputResources.Amis = [] := by
        rcases hempty with h | h
        · rw [hdist] at h
          exact absurd h (List.cons_ne_nil _ _)
        · exact h
      obtain ⟨name, param, hd⟩ := deriveNames_total env.unicodeFold fuel hfuel ec2data d
      simp [HandleRequest, hrec, hjson, getClient, hsess, hdist, hd, hamis, hmsg,
        Run.remoteCalls, Call.isRemote, Call.isTagWrite, Call.isParameterWrite]
  · rintro ⟨hdne, hane⟩
    obtain ⟨d, ds, hdist⟩ := List.exists_cons_of_ne_nil hdne
    obtain ⟨ami, amis, hamis⟩ := List.exists_cons_of_ne_nil hane
    obtain ⟨name, param, hd⟩ := deriveNames_total env.unicodeFold fuel hfuel ec2data d
    by_cases hstatus : ec2data.State.Status = "AVAILABLE"
    · cases htag : env.CreateTags sess (createTagsInput ec2data name ami.Image) with
      | some e =>
        exact ⟨some e, by
          simp [HandleRequest, hrec, hjson, getClient, hsess, hdist, hd, hamis, hstatus, htag]⟩
      | none =>
        cases hput : env.PutParameter sess (putParameterInput param ami.Image) with
        | some e =>
          exact ⟨some e, by
            simp [HandleRequest, hrec, hjson, getClient, hsess, hdist, hd, hamis, hstatus,
              htag, hput]⟩
        | none =>
          exact ⟨none, by
            simp [HandleRequest, hrec, hjson, getClient, hsess, hdist, hd, hamis, hstatus,
              htag, hput]⟩
    · exact ⟨_, (HandleRequest_not_available_outcome env fuel hfuel g snsEvent snsRecord ec2data sess d ds ami amis
        hrec hjson hsess hdist hamis hstatus)⟩

/-- Witness of C9: no distribution with status "PENDING", no image with status
"AVAILABLE", and both lists non-empty. -/
theorem C9_index_fault_witness :
    ((HandleRequest (testEnv (sampleLists "PENDING" [] [sampleAmi]) none none) 2
        (Globals.mk none none) (batch 1)).outcome =
      Outcome.panicked "runtime error: index out of range [0] with length 0") ∧
    ((HandleRequest (testEnv (sampleLists "AVAILABLE" [sampleDistribution "webserver" "acme"] [])
        none none) 2 (Globals.mk none none) (batch 1)).outcome =
      Outcome.panicked "runtime error: index out of range [0] with length 0") ∧
    (∃ err, (HandleRequest (testEnv (sampleData "AVAILABLE" "webserver" "acme") none none) 2
        (Globals.mk none none) (batch 1)).outcome = Outcome.returned err) :=
  ⟨((C9_index_fault (testEnv (sampleLists "PENDING" [] [sampleAmi]) none none) 2 (by decide)
      (Globals.mk none none) (batch 1) sampleRecord (sampleLists "PENDING" [] [sampleAmi])
      (Session.mk 1) rfl rfl rfl).1 (Or.inl rfl)).1,
    ((C9_index_fault
      (testEnv (sampleLists "AVAILABLE" [sampleDistribution "webserver" "acme"] []) none none) 2
      (by decide) (Globals.mk none none) (batch 1) sampleRecord
      (sampleLists "AVAILABLE" [sampleDistribution "webserver" "acme"] [])
      (Session.mk 1) rfl rfl rfl).1 (Or.inr rfl)).1,
    (C9_index_fault (testEnv (sampleData "AVAILABLE" "webserver" "acme") none none) 2
      (by decide) (Globals.mk none none) (batch 1) sampleRecord
      (sampleData "AVAILABLE" "webserver" "acme") (Session.mk 1) rfl rfl rfl).2
      ⟨by decide, by decide⟩⟩

/-- C10: the parameter path derived for a role that fails the
`strings.EqualFold` test, "/ec2ImageBuilder/" project "/" role, differs from the
golden-image path "/ec2ImageBuilder/goldenImage" for every project and role,
empty or containing slashes included. -/
theorem C10_paths_disjoint (uf : Nat → Nat) (fuel : Nat) (ec2data : Ec2BuilderData)
    (role project : String)
    (h : EqualFold uf fuel role GOLDENIMAGE = some false) :
    ∃ name param,
      deriveNames uf fuel ec2data
          (Distribution.mk (AmiDistributionConfiguration.mk (AmiTags.mk role project))) =
        some (name, param) ∧
      param = "/ec2ImageBuilder/" ++ project ++ "/" ++ role ∧
      param ≠ "/ec2ImageBuilder/goldenImage" ∧
      ∀ (role2 project2 : String), param ≠ amiParameter true project2 role2 := by
  have hne : amiParameter false project role ≠ "/ec2ImageBuilder/goldenImage" :=
    amiParameter_other_ne project role
  refine ⟨_, _, deriveNames_of_fold uf fuel ec2data _ false h, ?_, hne, ?_⟩
  · simp only [amiParameter, Bool.false_eq_true, if_false]
    have e2 : "/ec2ImageBuilder" ++ "/" = "/ec2ImageBuilder/" := by decide
    rw [e2]
  · intro role2 project2
    have e : amiParameter true project2 role2 = "/ec2ImageBuilder/goldenImage" := by
      simp only [amiParameter, if_true]
      decide
    rw [e]
    exact hne

/-- Witness of C10 on an empty project and a role that contains a slash. -/
theorem C10_paths_disjoint_witness :
    EqualFold (fun r => r) 0 "golden/Image" GOLDENIMAGE = some false ∧
    ∃ name,
      deriveNames (fun r => r) 0 (sampleData "AVAILABLE" "golden/Image" "")
          (sampleDistribution "golden/Image" "") =
        some (name, "/ec2ImageBuilder//golden/Image") ∧
      "/ec2ImageBuilder//golden/Image" ≠ "/ec2ImageBuilder/goldenImage" := by
  obtain ⟨name, param, hd, hp, hne, _⟩ :=
    C10_paths_disjoint (fun r => r) 0 (sampleData "AVAILABLE" "golden/Image" "")
      "golden/Image" "" (by decide)
  have hp2 : param = "/ec2ImageBuilder//golden/Image" := hp.trans (by decide)
  subst hp2
  exact ⟨by decide, name, hd, hne⟩

end Lambda
